import Mathlib

/-!
# Verification of the Skyperious command-line engine (`src/skyperious/main.py`)

Shallow embedding of the command-line Orchestrator of Skyperious:
the merge driver `run_merge`, the diff driver `run_diff`, the ASCII
`ProgressBar`, the `output` print wrapper and the `__main__` guard.

Modelling conventions:
* Python `int` is `Int`; Python float arithmetic on values derived from
  ints (`100.0 * value / divisor`) is modelled exactly over `ℚ`.
* Python 2 `round` (half away from zero) and `int()` truncation of an
  integral float are modelled by `pyRound`.
* The postback dictionaries put on the `Queue` by a worker thread are
  modelled as the tagged union of spec §6 (`Postback`), since the
  producing module `workers.py` is outside the embedded source.
* Database handles are external collaborators (spec §1): a source
  database is identified by its filename, and the postback stream its
  merge job produces is an arbitrary function `String → List Postback`.
* Threading (the worker thread, the progress-bar ticker thread) is
  modelled by the sequential consumption order of the postback queue,
  which is the only order the Orchestrator observes.
-/

namespace Skyperious

/-! ## Python semantics helpers -/

/-- Python `a or b` for integers: `b` if `a` is falsy (zero), else `a`.
Models the expression `self.max or 1` in `ProgressBar.update`. -/
def pyOr (a b : Int) : Int := if a = 0 then b else a

/-- Python 2 `int(round(x))` for a rational `x`: `round` rounds half
away from zero to an integral float, `int` converts it exactly.
`round(x) = ⌊x + 1/2⌋` for `x ≥ 0` and `-⌊-x + 1/2⌋` otherwise; both
are written on the numerator and denominator so the computation
evaluates inside the kernel (see `pyRound_eq_floor`). -/
def pyRound (x : ℚ) : Int :=
  if 0 ≤ x.num then (2 * x.num + (x.den : Int)) / (2 * (x.den : Int))
  else -((-(2 * x.num) + (x.den : Int)) / (2 * (x.den : Int)))

/-- Python 2 integer division `a / b` (floor division) for `b = 2` uses. -/
def pyFloorDiv (a b : Int) : Int := Int.fdiv a b

/-- Python string repetition `s * n`: empty for a non-positive count. -/
def pyStrMul (s : String) (n : Int) : String :=
  if n ≤ 0 then "" else String.join (List.replicate n.toNat s)

/-- Python slice `s[:i]`, with negative indices counting from the end. -/
def pySliceTo (s : String) (i : Int) : String :=
  if 0 ≤ i then String.mk (s.toList.take i.toNat)
  else String.mk (s.toList.take (s.toList.length - (-i).toNat))

/-- Python slice `s[i:]`, with negative indices counting from the end. -/
def pySliceFrom (s : String) (i : Int) : String :=
  if 0 ≤ i then String.mk (s.toList.drop i.toNat)
  else String.mk (s.toList.drop (s.toList.length - (-i).toNat))

/-- Python `"%2d" % p`: decimal representation left-padded to width 2. -/
def fmt2d (p : Int) : String :=
  if (toString p).length < 2 then " " ++ toString p else toString p

/-- The cycle `itertools.cycle("-\\|/")` of progress animation chars. -/
def progressChars : List Char := ['-', '\\', '|', '/']

/-! ## ProgressBar (`class ProgressBar`, main.py lines 632-699)

State of the ASCII progress bar.  The ticker thread (`run`) only
re-invokes `update` with the current value and is cosmetic redraw
(spec §1 puts progress-bar rendering out of core scope); the iterator
`self.progresschar` is modelled by the index `cycleIndex` into
`progressChars`. -/

structure ProgressBar where
  max : Int
  value : Int
  min : Int
  width : Int
  forechar : String
  backchar : String
  foreword : String
  afterword : String
  percent : Int
  bar : String
  printbar : String
  cycleIndex : Nat
deriving Repr, DecidableEq

/-- `ProgressBar.update(value, draw)` (main.py lines 665-684).

Returns `none` exactly when the percentage computation would divide by
zero (a Python `ZeroDivisionError`); the divisor is `self.max or 1`, so
this never happens — see the totality theorem for C9.  When `draw` is
true and the bar is not full, the last bar character is taken from the
cycling animation characters (`next(self.progresschar)`).  The float
expressions `100.0 * value / divisor` and `(new_percent / 100.0) *
w_full` are modelled as the exact rationals `Rat.divInt (100 * value)
divisor` and `Rat.divInt (new_percent * w_full) 100`. -/
def ProgressBar.update (pb : ProgressBar) (value : Int) (draw : Bool) :
    Option ProgressBar :=
  let v := Min.min pb.max (Max.max pb.min value)
  let divisor := pyOr pb.max 1
  if divisor = 0 then none else
  let newPercent := pyRound (Rat.divInt (100 * v) divisor)
  let wFull := pb.width - 2
  let wDone := Max.max 1 (pyRound (Rat.divInt (newPercent * wFull) 100))
  let useCycle := draw && decide (wDone < wFull)
  let charLast :=
    if useCycle then String.singleton (progressChars.getD (pb.cycleIndex % 4) '-')
    else pb.forechar
  let cycleIndex' := if useCycle then pb.cycleIndex + 1 else pb.cycleIndex
  let bartext0 := pb.foreword ++ "[" ++ pyStrMul pb.forechar (wDone - 1) ++
    charLast ++ pyStrMul pb.backchar (wFull - wDone) ++ "]" ++ pb.afterword
  let centertxt := " " ++ fmt2d newPercent ++ "% "
  let pos := (pb.foreword.length : Int) + pyFloorDiv pb.width 2 -
    pyFloorDiv (centertxt.length : Int) 2
  let bartext := pySliceTo bartext0 pos ++ centertxt ++
    pySliceFrom bartext0 (pos + (centertxt.length : Int))
  let printbar := bartext ++
    pyStrMul " " (Max.max 0 ((pb.bar.length : Int) - (bartext.length : Int)))
  some { pb with value := v, percent := newPercent, bar := bartext,
                 printbar := printbar, cycleIndex := cycleIndex' }

/-- `ProgressBar.__init__` (main.py lines 638-662): records the
constructor arguments, builds the initial outline and runs
`update(value, draw=False)`.  The pre-`update` placeholders for
`percent`/`value` (`None` in Python) are written as `0`; both are
overwritten by the `update` call before they can be read. -/
def ProgressBar.init (max0 value0 min0 width0 : Int)
    (forechar0 backchar0 foreword0 afterword0 : String) : Option ProgressBar :=
  let bar0 := foreword0 ++ "[-" ++ pyStrMul " " (width0 - 3) ++ "]" ++ afterword0
  ProgressBar.update
    { max := max0, value := 0, min := min0, width := width0,
      forechar := forechar0, backchar := backchar0, foreword := foreword0,
      afterword := afterword0, percent := 0, bar := bar0, printbar := bar0,
      cycleIndex := 0 } value0 false

/-- The default-constructed bar `ProgressBar()` used by `run_merge`
(main.py line 270); its `init` cannot fail (divisor `100`), the fallback
record is never used. -/
def defaultBar : ProgressBar :=
  (ProgressBar.init 100 0 0 30 "-" " " "" "").getD
    { max := 100, value := 0, min := 0, width := 30, forechar := "-",
      backchar := " ", foreword := "", afterword := "", percent := 0,
      bar := "", printbar := "", cycleIndex := 0 }

/-! ## Postbacks and the merge Orchestrator (`run_merge`, main.py lines 258-319) -/

/-- Modelled from the spec: the `DiffResult` carried by a `diff`
postback (spec §3, §6) — the messages and participants present in the
source chat but absent from the comparison target.  `run_merge` reads
only `result["diff"]["messages"]`; message and participant payloads are
opaque here. -/
structure ChatDiff where
  messages : List String
  participants : List String
deriving Repr, DecidableEq

/-- Modelled from the spec: the postback message schema (spec §6), the
tagged union a `workers.MergeThread` job delivers through the
`Queue.Queue` (`workers.py` is outside the embedded source; `run_merge`
consumes the messages by their distinguishing key: `error`, `done`,
`diff`, `index`/`count`, `output`). -/
inductive Postback where
  | error (msg : String)
  | done
  | diff (d : ChatDiff)
  | progress (index count : Int)
  | outputLine (text : String)
deriving Repr, DecidableEq

/-- One per-source entry of the `counts` accumulator
(`collections.defaultdict(lambda: collections.defaultdict(int))`):
`counts[db1]["chats"]` and `counts[db1]["msgs"]`. -/
structure MergeCounts where
  chats : Nat
  msgs : Nat
deriving Repr, DecidableEq

/-- `counts[db1]["chats"] += dc; counts[db1]["msgs"] += dm` on the
defaultdict: inserts the key on first access. -/
def countsAdd (m : List (String × MergeCounts)) (k : String) (dc dm : Nat) :
    List (String × MergeCounts) :=
  match m with
  | [] => [(k, ⟨dc, dm⟩)]
  | (k', c) :: rest =>
    if k' = k then (k', ⟨c.chats + dc, c.msgs + dm⟩) :: rest
    else (k', c) :: countsAdd rest k dc dm

/-- Defaultdict read: the entry for `k`, or zero counts if absent. -/
def countsGet (m : List (String × MergeCounts)) (k : String) : MergeCounts :=
  match m with
  | [] => ⟨0, 0⟩
  | (k', c) :: rest => if k' = k then c else countsGet rest k

/-- The Orchestrator state threaded through the merge loop: the
`counts` accumulator, the progress bar, and the lines passed to `log`. -/
structure LoopState where
  counts : List (String × MergeCounts)
  bar : ProgressBar
  logLines : List String
deriving Repr, DecidableEq

/-- The inner `while True` consumption loop of `run_merge`
(main.py lines 285-300) for the source `db1`: takes postbacks from the
queue in order until the terminal `error` or `done` message, counting
`diff` postbacks into `counts[db1]` and forwarding progress to the bar.
Returns the updated state and the error message, if the terminal
postback was an `error`.  An exhausted stream stands for a worker that
has stopped without a terminal postback (the real queue would block);
no claim depends on that case.  The `.getD` on the bar update never
falls back: the divisor `self.max or 1` is nonzero (theorem
`progressbar_update_total` below). -/
def processStream (db1 : String) :
    List Postback → LoopState → LoopState × Option String
  | [], st => (st, none)
  | p :: rest, st =>
    match p with
    | .error msg => (st, some msg)
    | .done => (st, none)
    | .diff d =>
      processStream db1 rest
        { st with counts := countsAdd st.counts db1 1 d.messages.length }
    | .progress i c =>
      let bar' := { st.bar with max := c }
      processStream db1 rest { st with bar := (bar'.update i true).getD bar' }
    | .outputLine t =>
      processStream db1 rest { st with logLines := st.logLines ++ [t] }

/-- Externally visible file-system and job actions of `run_merge`,
in program order. -/
inductive MergeEvent where
  | copyFile (src dst : String)
  | processSource (db : String)
  | reportError (db msg : String)
  | deleteOutput (f : String)
  | keepOutput (f : String)
deriving Repr, DecidableEq

/-- Result of the outer `for db1 in dbs` loop (main.py lines 280-306). -/
structure LoopResult where
  state : LoopState
  processed : List String
  events : List MergeEvent
deriving Repr, DecidableEq

/-- The outer `for db1 in dbs` loop of `run_merge` (main.py lines
280-306).  The job of each source is dispatched (`worker.work`) and its
postbacks consumed by `processStream`.  On an `error` postback the code
sets `db1 = None  # Signal for global break`, reports the error, breaks
the inner loop, and the `if not db1: break` breaks the outer loop as
well — the remaining sources are not processed.  On normal completion
the bar is stopped and redrawn at its maximum and the loop continues. -/
def mergeLoop (streamOf : String → List Postback) :
    List String → LoopState → LoopResult
  | [], st => ⟨st, [], []⟩
  | db1 :: rest, st =>
    let stA := { st with bar :=
      { st.bar with afterword :=
        " Processing " ++ String.mk (db1.toList.take 30) ++ ".." } }
    let pr := processStream db1 (streamOf db1) stA
    match pr.2 with
    | some msg => ⟨pr.1, [db1], [.processSource db1, .reportError db1 msg]⟩
    | none =>
      let bar2 := { pr.1.bar with afterword := " Processed " ++ db1 ++ "." }
      let bar3 := (bar2.update bar2.max true).getD bar2
      let r := mergeLoop streamOf rest { pr.1 with bar := bar3 }
      ⟨r.state, db1 :: r.processed, .processSource db1 :: r.events⟩

/-- `os.path.split(p)[-1]`: the final path component — everything after
the last `/`. -/
def basename (p : String) : String :=
  String.mk (((p.toList.reverse).takeWhile (fun c => decide (c ≠ '/'))).reverse)

/-- `os.path.splitext` on a basename: splits at the last dot, provided
a non-dot character precedes it (CPython `genericpath._splitext` with no
directory separator in the input). -/
def splitext (p : String) : String × String :=
  match ((p.toList.enum.filter (fun q => decide (q.2 = '.'))).getLast?).map
      Prod.fst with
  | none => (p, "")
  | some i =>
    if (p.toList.take i).any (fun c => decide (c ≠ '.')) then
      (String.mk (p.toList.take i), String.mk (p.toList.drop i))
    else (p, "")

/-- Overall outcome of one `run_merge` invocation. -/
structure MergeRun where
  base : String
  outputFilename : String
  counts : List (String × MergeCounts)
  events : List MergeEvent
  outputDeleted : Bool
  processed : List String
deriving Repr, DecidableEq

/-- `run_merge(filenames, output_filename)` (main.py lines 258-319).

* `streamOf db` is the postback stream the merge job for source `db`
  delivers (the worker is an external collaborator, spec §2);
* `unique_path` stands for `util.unique_path` (module `util` is outside
  the embedded source); the theorems constrain it by its spec:
  it returns a path to a non-existing file, equal to its argument
  whenever the argument itself does not exist yet;
* `today` is `datetime.datetime.now().strftime("%Y%m%d")`.

`db_base = dbs.pop()` takes the last filename as base; an empty
`filenames` raises `IndexError` (`none`).  The base is copied to the
output file (`shutil.copyfile`) before the merge loop runs; afterwards
the output is deleted exactly when the `counts` accumulator stayed
empty, i.e. when no `diff` postback was ever received. -/
def run_merge (streamOf : String → List Postback)
    (unique_path : String → String) (today : String)
    (filenames : List String) (output_filename : Option String) :
    Option MergeRun :=
  match filenames.getLast? with
  | none => none
  | some db_base =>
    let dbs := filenames.dropLast
    let ne := splitext (basename db_base)
    let outName :=
      match output_filename with
      | some o => o
      | none => unique_path (ne.1 ++ ".merged." ++ today ++ ne.2)
    let st0 : LoopState := ⟨[], defaultBar, []⟩
    let r := mergeLoop streamOf dbs st0
    let deleted := r.state.counts.isEmpty
    some { base := db_base, outputFilename := outName,
           counts := r.state.counts,
           events := .copyFile db_base outName :: r.events ++
             [if deleted then .deleteOutput outName else .keepOutput outName],
           outputDeleted := deleted,
           processed := r.processed }

/-! ## Command-line file resolution (`run`, main.py lines 517-524) -/

/-- Python string comparison `a <= b`: lexicographic on code points. -/
def charListLe : List Char → List Char → Bool
  | [], _ => true
  | _ :: _, [] => false
  | x :: xs, y :: ys =>
    if x.toNat < y.toNat then true
    else if y.toNat < x.toNat then false
    else charListLe xs ys

/-- Python `a <= b` on strings. -/
def pyStrLe (a b : String) : Bool := charListLe a.toList b.toList

/-- Insertion of a string into a sorted list, for `sorted`. -/
def insertSorted (x : String) : List String → List String
  | [] => [x]
  | y :: ys => if pyStrLe x y then x :: y :: ys else y :: insertSorted x ys

/-- Python `sorted` on strings (ascending lexicographic order). -/
def sortStrings (xs : List String) : List String :=
  xs.foldr insertSorted []

/-- `arguments.FILE` post-processing for the merge command (main.py
lines 517-524): `FILE1 + FILE2` is the input list; each argument
containing `*` is expanded through `glob.glob` (the file system is the
external function `globFn`), then `sorted(set(...))` deduplicates and
sorts.  (`util.to_unicode` is the identity on the abstract strings.) -/
def resolveFiles (globFn : String → List String) (files : List String) :
    List String :=
  sortStrings
    ((files.map (fun f =>
      if f.toList.any (fun c => decide (c = '*')) then globFn f
      else [f])).flatten).dedup

/-- The `merge` command dispatch: resolved files are passed to
`run_merge` together with the `-o` option (main.py lines 543-544). -/
def mergeCommand (globFn : String → List String)
    (streamOf : String → List Postback) (unique_path : String → String)
    (today : String) (files : List String) (output : Option String) :
    Option MergeRun :=
  run_merge streamOf unique_path today (resolveFiles globFn files) output

/-! ## Diff guard (`run_diff`, main.py lines 400-405) -/

/-- Externally visible actions of `run_diff` relevant to its guard. -/
inductive DiffStep where
  | printError (msg : String)
  | openDb (f : String)
  | spawnWorker
deriving Repr, DecidableEq

/-- The entry of `run_diff(filename1, filename2)` (main.py lines
400-405): if the two arguments resolve to the same real path the error
is printed and the function returns at once; otherwise both databases
are opened and a `workers.MergeThread` is spawned.  `realpath` is
`os.path.realpath`, an external file-system function.  The postback
consumption loop after the spawn parallels the one of `run_merge` and is beyond
the guard the claims address; the trace records the actions that decide
whether databases were opened and a worker spawned. -/
def run_diff (realpath : String → String) (filename1 filename2 : String) :
    List DiffStep :=
  if realpath filename1 = realpath filename2 then
    [DiffStep.printError ("Error: cannot compare " ++ filename1 ++ " with itself.")]
  else
    [DiffStep.openDb filename1, DiffStep.openDb filename2, DiffStep.spawnWorker]

/-! ## `output` print wrapper (main.py lines 725-733) -/

/-- Outcome of the `sys.stdout.flush()` call inside `output`. -/
inductive FlushOutcome where
  | ok
  | ioError (errnoValue : Int)
deriving Repr, DecidableEq

/-- How a call to `output` returns to its caller. -/
inductive OutputResult where
  | returned
  | exited
  | raised (errnoValue : Int)
deriving Repr, DecidableEq

/-- `errno.EPIPE` (Linux value 32). -/
def EPIPE : Int := 32

/-- `errno.EINVAL` (Linux value 22). -/
def EINVAL : Int := 22

/-- Observable effect of one `output(...)` call. -/
structure OutputEffect where
  printed : Bool
  flushAttempted : Bool
  result : OutputResult
deriving Repr, DecidableEq

/-- `output(*args, **kwargs)` (main.py lines 725-733): prints, then
flushes stdout; an `IOError` from the flush with errno `EINVAL` or
`EPIPE` leads to `sys.exit()`, any other `IOError` is re-raised. -/
def outputCall (flush : FlushOutcome) : OutputEffect :=
  { printed := true, flushAttempted := true,
    result :=
      match flush with
      | .ok => .returned
      | .ioError e => if e = EINVAL ∨ e = EPIPE then .exited else .raised e }

/-! ## `__main__` guard (main.py lines 736-738) -/

/-- A Python exception escaping `run()`. -/
inductive PyExc where
  | keyboardInterrupt
  | other (name : String)
deriving Repr, DecidableEq

/-- How one invocation of `run()` ends. -/
inductive RunOutcome where
  | normal
  | raises (e : PyExc)
deriving Repr, DecidableEq

/-- How the process terminates. -/
inductive ProcEnd where
  | completed
  | cleanExit
  | uncaughtTraceback (e : PyExc)
deriving Repr, DecidableEq

/-- `if "__main__" == __name__: try: run() except KeyboardInterrupt:
sys.exit()` (main.py lines 736-738): a `KeyboardInterrupt` escaping
`run()` is caught and turned into a clean `sys.exit()`; any other
exception propagates and the interpreter prints its traceback. -/
def mainEntry : RunOutcome → ProcEnd
  | .normal => .completed
  | .raises .keyboardInterrupt => .cleanExit
  | .raises e => .uncaughtTraceback e

/-! ## Stream observables

Observable properties of a postback stream, phrased independently of
the consumption loop, used to state what the Orchestrator computes. -/

/-- The terminal postback of a stream as the consumption loop sees it:
the message of the first `error`, or `none` if a `done` (or the end of
the stream) comes first. -/
def streamTerminal : List Postback → Option String
  | [] => none
  | Postback.error msg :: _ => some msg
  | Postback.done :: _ => none
  | Postback.diff _ :: rest => streamTerminal rest
  | Postback.progress _ _ :: rest => streamTerminal rest
  | Postback.outputLine _ :: rest => streamTerminal rest

/-- Whether a `diff` postback is received before the terminal postback. -/
def hasDiffBeforeTerminal : List Postback → Bool
  | [] => false
  | Postback.error _ :: _ => false
  | Postback.done :: _ => false
  | Postback.diff _ :: _ => true
  | Postback.progress _ _ :: rest => hasDiffBeforeTerminal rest
  | Postback.outputLine _ :: rest => hasDiffBeforeTerminal rest

/-- Number of `diff` postbacks received (before the terminal postback). -/
def numDiffs : List Postback → Nat
  | [] => 0
  | Postback.error _ :: _ => 0
  | Postback.done :: _ => 0
  | Postback.diff _ :: rest => 1 + numDiffs rest
  | Postback.progress _ _ :: rest => numDiffs rest
  | Postback.outputLine _ :: rest => numDiffs rest

/-- Sum of the lengths of the `messages` lists of the received `diff`
postbacks (before the terminal postback). -/
def sumMsgs : List Postback → Nat
  | [] => 0
  | Postback.error _ :: _ => 0
  | Postback.done :: _ => 0
  | Postback.diff d :: rest => d.messages.length + sumMsgs rest
  | Postback.progress _ _ :: rest => sumMsgs rest
  | Postback.outputLine _ :: rest => sumMsgs rest

/-- Whether any `diff` postback is ever received across the source list,
in the consumption order of `run_merge`: a source whose stream ends in
an `error` stops the consumption of all later sources. -/
def anyDiffReceived (streamOf : String → List Postback) :
    List String → Bool
  | [] => false
  | db :: rest =>
    hasDiffBeforeTerminal (streamOf db) ||
      (!(streamTerminal (streamOf db)).isSome && anyDiffReceived streamOf rest)

/-! ## Concrete fixtures for counterexamples and witnesses -/

/-- The default bar updated once, a concrete successful `update`. -/
def updatedDefaultBar : ProgressBar :=
  (ProgressBar.update defaultBar 7 true).getD defaultBar

/-- The default bar after `update(10)`. -/
def pbMono1 : ProgressBar :=
  (ProgressBar.update defaultBar 10 true).getD defaultBar

/-- `pbMono1` after `update(20)`. -/
def pbMono2 : ProgressBar :=
  (ProgressBar.update pbMono1 20 true).getD defaultBar

/-- Streams for the C1 counterexample: source `a.db` fails at once,
source `b.db` would contribute one chat. -/
def cexStreams : String → List Postback := fun db =>
  if db = "a.db" then [Postback.error "boom"]
  else [Postback.diff ⟨["m1"], []⟩, Postback.done]

/-- The C1 counterexample merge run: sources `a.db`, `b.db`, base
`base.db`. -/
def cexRun : Option MergeRun :=
  run_merge cexStreams (fun t => t) "20150531"
    ["a.db", "b.db", "base.db"] (some "out.db")

/-- Streams for the C1 witness: every source fails at once. -/
def gbStreams : String → List Postback := fun _ => [Postback.error "gone"]

/-- Streams for the C2 witness: `a.db` contributes two messages in one
chat, then `b.db` fails (its file deleted mid-run, Scenario D). -/
def keptStreams : String → List Postback := fun db =>
  if db = "a.db" then [Postback.diff ⟨["m1", "m2"], []⟩, Postback.done]
  else [Postback.error "gone"]

/-- Glob function for the C7 witness: the pattern `x*z` matches no
file. -/
def gW : String → List String := fun _ => []

/-- Streams for the C7 witness: the single source reports `done`. -/
def sW : String → List Postback := fun _ => [Postback.done]

/-! ## Helper lemmas about the Python arithmetic model -/

theorem pyRound_eq_floor (x : ℚ) :
    pyRound x = if 0 ≤ x then ⌊x + 1/2⌋ else -⌊-x + 1/2⌋ := by
  have hd0 : ((x.den : ℚ)) ≠ 0 := Nat.cast_ne_zero.mpr x.den_nz
  have hx : (x.num : ℚ) = x * (x.den : ℚ) :=
    (div_eq_iff hd0).mp (Rat.num_div_den x)
  have h1 : x + 1/2 = ((2 * x.num + (x.den : Int) : Int) : ℚ) /
      (((2 * x.den : ℕ) : ℕ) : ℚ) := by
    push_cast
    field_simp
    rw [hx]
    ring
  have h2 : -x + 1/2 = (((-(2 * x.num) + (x.den : Int)) : Int) : ℚ) /
      (((2 * x.den : ℕ) : ℕ) : ℚ) := by
    push_cast
    field_simp
    rw [hx]
    ring
  have hcast : ((2 * x.den : ℕ) : Int) = 2 * (x.den : Int) := by push_cast; ring
  unfold pyRound
  by_cases h : 0 ≤ x
  · rw [if_pos (Rat.num_nonneg.mpr h), if_pos h, h1,
      Rat.floor_intCast_div_natCast, hcast]
  · rw [if_neg (fun hc => h (Rat.num_nonneg.mp hc)), if_neg h, h2,
      Rat.floor_intCast_div_natCast, hcast]

theorem pyOr_ne_zero (m : Int) : pyOr m 1 ≠ 0 := by
  unfold pyOr
  split <;> omega

theorem pyOr_pos (m : Int) (h : 0 ≤ m) : 0 < pyOr m 1 := by
  unfold pyOr
  split <;> omega

/-- `update` always succeeds, stores the clamped value and the percent
computed from it, and leaves `max`, `min` and `width` unchanged. -/
theorem ProgressBar.update_eq (pb : ProgressBar) (value : Int) (draw : Bool) :
    ∃ pb', pb.update value draw = some pb' ∧
      pb'.value = Min.min pb.max (Max.max pb.min value) ∧
      pb'.percent = pyRound (Rat.divInt
        (100 * Min.min pb.max (Max.max pb.min value)) (pyOr pb.max 1)) ∧
      pb'.max = pb.max ∧ pb'.min = pb.min ∧ pb'.width = pb.width := by
  simp only [ProgressBar.update]
  rw [if_neg (pyOr_ne_zero pb.max)]
  exact ⟨_, rfl, rfl, rfl, rfl, rfl, rfl⟩

theorem pyRound_mono {x y : ℚ} (h : x ≤ y) : pyRound x ≤ pyRound y := by
  rw [pyRound_eq_floor, pyRound_eq_floor]
  by_cases hx : 0 ≤ x <;> by_cases hy : 0 ≤ y
  · rw [if_pos hx, if_pos hy]
    exact Int.floor_le_floor (by linarith)
  · exact absurd (le_trans hx h) hy
  · rw [if_neg hx, if_pos hy]
    have hx' := not_le.mp hx
    have h1 : (0:Int) ≤ ⌊y + 1/2⌋ := Int.le_floor.mpr (by push_cast; linarith)
    have h2 : (0:Int) ≤ ⌊-x + 1/2⌋ := Int.le_floor.mpr (by push_cast; linarith)
    omega
  · rw [if_neg hx, if_neg hy]
    have := Int.floor_le_floor (α := ℚ) (show -y + 1/2 ≤ -x + 1/2 by linarith)
    omega

/-! ## Claim C9 — `update` is total, divisor `max or 1` never zero -/

/-- C9: `ProgressBar.update` is total for every integer `value`, `min`,
`max` and `width ≥ 3`: the percentage divisor is `self.max or 1`, which
is `1` when `max` is `0`, so no division by zero is ever raised. -/
theorem progressbar_update_total (pb : ProgressBar) (value : Int)
    (draw : Bool) (_hw : 3 ≤ pb.width) :
    (pb.update value draw).isSome = true ∧ pyOr 0 1 = 1 := by
  obtain ⟨pb', heq, _⟩ := ProgressBar.update_eq pb value draw
  exact ⟨by rw [heq]; rfl, rfl⟩

/-- Witness for C9 at the default bar (`width = 30`). -/
theorem progressbar_update_total_witness :
    3 ≤ defaultBar.width ∧ (defaultBar.update 7 true).isSome = true :=
  ⟨by decide, (progressbar_update_total defaultBar 7 true (by decide)).1⟩

/-! ## Claim C6 — clamping of the stored value -/

/-- C6 counterexample: with `min = 5 > max = 3` the stored value after
`update(4)` is `3`, which does not lie in the closed interval
`[min, max] = [5, 3]` — the claim fails for arbitrary `min`/`max`. -/
theorem progressbar_clamp_counterexample :
    (ProgressBar.update { defaultBar with min := 5, max := 3 } 4 false).map
      (fun pb => decide (pb.min ≤ pb.value ∧ pb.value ≤ pb.max)) =
      some false := by decide

/-- C6 (amended): whenever the bar's `min` does not exceed its `max`,
the value stored by `update` lies in `[min, max]` (`min(max, max(min,
value))`), for every argument including a `max` changed since the
previous call. -/
theorem progressbar_update_clamped (pb pb' : ProgressBar) (value : Int)
    (draw : Bool) (hmm : pb.min ≤ pb.max)
    (h : pb.update value draw = some pb') :
    pb'.min ≤ pb'.value ∧ pb'.value ≤ pb'.max := by
  obtain ⟨q, heq, hval, _, hmax, hmin, _⟩ := ProgressBar.update_eq pb value draw
  have e : q = pb' := by
    rw [heq] at h
    exact Option.some.inj h
  subst e
  rw [hval, hmax, hmin]
  exact ⟨le_min hmm (le_max_left _ _), min_le_left _ _⟩

/-- Witness for the amended C6 at the default bar. -/
theorem progressbar_update_clamped_witness :
    defaultBar.min ≤ defaultBar.max ∧
    updatedDefaultBar.min ≤ updatedDefaultBar.value ∧
    updatedDefaultBar.value ≤ updatedDefaultBar.max :=
  ⟨by decide, progressbar_update_clamped defaultBar updatedDefaultBar 7 true
    (by decide) (by decide)⟩

/-! ## Claim C5 — monotonicity of the displayed percentage -/

/-- C5 counterexample: the displayed percentage is not monotone under a
mid-stream `max` change.  `update(50)` at `max = 100` shows 50%; after
`bar.max = 200` (as `run_merge` does on an `index` postback),
`update(60)` shows 30% — a decrease even though the value increased. -/
theorem progressbar_percent_decrease_counterexample :
    (ProgressBar.update defaultBar 50 true).map ProgressBar.percent =
      some 50 ∧
    ((ProgressBar.update defaultBar 50 true).bind fun pb1 =>
        ProgressBar.update { pb1 with max := 200 } 60 true).map
      ProgressBar.percent = some 30 ∧
    ¬ ((50 : Int) ≤ 30) := ⟨by decide, by decide, by decide⟩

/-- C5 (amended): for consecutive `update` calls with non-decreasing
values, a non-negative `max`, and `min`/`max` left unchanged between the
calls (as `update` itself leaves them), the displayed percentages are
non-decreasing. -/
theorem progressbar_percent_monotone (pb pb1 pb2 : ProgressBar)
    (v1 v2 : Int) (d1 d2 : Bool) (hmax : 0 ≤ pb.max) (hv : v1 ≤ v2)
    (h1 : pb.update v1 d1 = some pb1) (h2 : pb1.update v2 d2 = some pb2) :
    pb1.percent ≤ pb2.percent := by
  obtain ⟨q1, heq1, _, hperc1, hmax1, hmin1, _⟩ :=
    ProgressBar.update_eq pb v1 d1
  rw [heq1] at h1
  have e1 := Option.some.inj h1
  rw [e1] at hperc1 hmax1 hmin1
  obtain ⟨q2, heq2, _, hperc2, _, _, _⟩ := ProgressBar.update_eq pb1 v2 d2
  rw [heq2] at h2
  have e2 := Option.some.inj h2
  rw [e2] at hperc2
  rw [hperc1, hperc2, hmax1, hmin1]
  apply pyRound_mono
  rw [Rat.divInt_eq_div, Rat.divInt_eq_div]
  have hdpos : (0:ℚ) < ((pyOr pb.max 1 : Int) : ℚ) := by
    exact_mod_cast pyOr_pos pb.max hmax
  apply (div_le_div_iff_of_pos_right hdpos).mpr
  have hc : Min.min pb.max (Max.max pb.min v1) ≤
      Min.min pb.max (Max.max pb.min v2) :=
    min_le_min le_rfl (max_le_max le_rfl hv)
  exact_mod_cast mul_le_mul_of_nonneg_left hc (by norm_num : (0:Int) ≤ 100)

/-- Witness for the amended C5 at the default bar. -/
theorem progressbar_percent_monotone_witness :
    0 ≤ defaultBar.max ∧ pbMono1.percent ≤ pbMono2.percent :=
  ⟨by decide, progressbar_percent_monotone defaultBar pbMono1 pbMono2 10 20
    true true (by decide) (by decide) (by decide) (by decide)⟩

/-! ## Helper lemmas for the merge loop -/

theorem processStream_snd (db1 : String) (s : List Postback)
    (st : LoopState) : (processStream db1 s st).2 = streamTerminal s := by
  induction s generalizing st with
  | nil => rfl
  | cons p rest ih => cases p <;> simp [processStream, streamTerminal, ih]

theorem countsAdd_isEmpty_false (m : List (String × MergeCounts))
    (k : String) (dc dm : Nat) : (countsAdd m k dc dm).isEmpty = false := by
  cases m with
  | nil => rfl
  | cons hd tl =>
    obtain ⟨k', c⟩ := hd
    simp only [countsAdd]
    split <;> rfl

theorem processStream_counts_isEmpty (db1 : String) (s : List Postback)
    (st : LoopState) :
    (processStream db1 s st).1.counts.isEmpty =
      (st.counts.isEmpty && !hasDiffBeforeTerminal s) := by
  induction s generalizing st with
  | nil => simp [processStream, hasDiffBeforeTerminal]
  | cons p rest ih =>
    cases p with
    | error msg => simp [processStream, hasDiffBeforeTerminal]
    | done => simp [processStream, hasDiffBeforeTerminal]
    | diff d =>
      simp [processStream, hasDiffBeforeTerminal, ih, countsAdd_isEmpty_false]
    | progress i c => simp [processStream, hasDiffBeforeTerminal, ih]
    | outputLine t => simp [processStream, hasDiffBeforeTerminal, ih]

theorem countsGet_countsAdd (m : List (String × MergeCounts)) (k : String)
    (dc dm : Nat) :
    countsGet (countsAdd m k dc dm) k =
      ⟨(countsGet m k).chats + dc, (countsGet m k).msgs + dm⟩ := by
  induction m with
  | nil => simp [countsAdd, countsGet]
  | cons hd tl ih =>
    obtain ⟨k', c⟩ := hd
    by_cases h : k' = k
    · simp [countsAdd, countsGet, h]
    · simp [countsAdd, countsGet, h, ih]

theorem mergeLoop_counts_isEmpty (streamOf : String → List Postback)
    (dbs : List String) (st : LoopState) :
    (mergeLoop streamOf dbs st).state.counts.isEmpty =
      (st.counts.isEmpty && !anyDiffReceived streamOf dbs) := by
  induction dbs generalizing st with
  | nil => simp [mergeLoop, anyDiffReceived]
  | cons db rest ih =>
    simp only [mergeLoop]
    rw [processStream_snd]
    cases hterm : streamTerminal (streamOf db) with
    | some msg =>
      rw [processStream_counts_isEmpty]
      simp [anyDiffReceived, hterm]
    | none =>
      rw [ih, processStream_counts_isEmpty]
      simp [anyDiffReceived, hterm, Bool.not_or, Bool.and_assoc]

/-! ## Claim C4 — the counts are a pure fold over the postback stream -/

/-- C4: the consumption loop of `run_merge` (main.py lines 285-300) is a
pure fold over the postback stream of the current source: after
consuming stream `s` for source `db1`, `counts[db1]["chats"]` has grown
by exactly the number of `diff` postbacks received (those before the
terminal `done`/`error`), and `counts[db1]["msgs"]` by the sum of the
lengths of their `messages` lists. -/
theorem merge_counts_pure_fold (db1 : String) (s : List Postback)
    (st : LoopState) :
    countsGet (processStream db1 s st).1.counts db1 =
      ⟨(countsGet st.counts db1).chats + numDiffs s,
       (countsGet st.counts db1).msgs + sumMsgs s⟩ := by
  induction s generalizing st with
  | nil => simp [processStream, numDiffs, sumMsgs]
  | cons p rest ih =>
    cases p with
    | error msg => simp [processStream, numDiffs, sumMsgs]
    | done => simp [processStream, numDiffs, sumMsgs]
    | diff d =>
      show countsGet (processStream db1 rest
        { st with counts := countsAdd st.counts db1 1 d.messages.length
        }).1.counts db1 = _
      rw [ih]
      simp [countsGet_countsAdd, numDiffs, sumMsgs, MergeCounts.mk.injEq]
      omega
    | progress i c => simp [processStream, numDiffs, sumMsgs, ih]
    | outputLine t => simp [processStream, numDiffs, sumMsgs, ih]

/-- Scenario A of the spec, computed concretely: the `extra.db` source
sends one `diff` postback carrying two new messages; the aggregated
`counts[extra]["msgs"]` is 2. -/
theorem scenarioA_extra_msgs :
    (run_merge
      (fun db => if db = "extra.db" then
          [Postback.progress 0 1, Postback.diff ⟨["m6", "m7"], []⟩,
           Postback.done]
        else [Postback.done])
      (fun t => t) "20150531" ["extra.db", "base.db"] none).map
      (fun mr => (countsGet mr.counts "extra.db").msgs) = some 2 := by decide

/-! ## Claim C1 — what an `error` postback aborts -/

/-- C1 counterexample: after the `error` postback for source `a.db`,
`run_merge` does not proceed with the remaining source `b.db` — only
`a.db` was processed, `b.db` is absent from the processed list, and its
contribution never reached the counts. -/
theorem merge_error_abandons_rest_counterexample :
    cexRun.map MergeRun.processed = some ["a.db"] ∧
    cexRun.map (fun mr => decide ("b.db" ∈ mr.processed)) = some false ∧
    cexRun.map MergeRun.counts = some [] :=
  ⟨by decide, by decide, by decide⟩

/-- C1 (amended): when the postback stream of a source terminates with an
`error`, the Orchestrator reports that error and abandons not only that
remaining chats of that source but the whole remaining batch: the merge loop
stops with that source as the last processed one, whatever sources
remain (`db1 = None  # Signal for global break`). -/
theorem merge_error_global_break (streamOf : String → List Postback)
    (db : String) (rest : List String) (st : LoopState) (msg : String)
    (h : streamTerminal (streamOf db) = some msg) :
    (mergeLoop streamOf (db :: rest) st).processed = [db] ∧
    (mergeLoop streamOf (db :: rest) st).events =
      [MergeEvent.processSource db, MergeEvent.reportError db msg] := by
  constructor <;>
    · simp only [mergeLoop]
      rw [processStream_snd, h]

/-- Witness for the amended C1: with two sources and an erroring first
stream, only the first source is processed. -/
theorem merge_error_global_break_witness :
    streamTerminal (gbStreams "a.db") = some "gone" ∧
    (mergeLoop gbStreams ["a.db", "b.db"]
      ⟨[], defaultBar, []⟩).processed = ["a.db"] :=
  ⟨by decide, (merge_error_global_break gbStreams "a.db" ["b.db"]
    ⟨[], defaultBar, []⟩ "gone" (by decide)).1⟩

/-! ## Claim C2 — when the output file is deleted -/

/-- C2: after a merge run the output database file is deleted if and
only if no `diff` postback was ever received from any source: the
`counts` accumulator gains entries only on `diff` postbacks, and
`run_merge` unlinks the output exactly when `counts` is empty.  In
particular the output is kept whenever at least one source contributed,
also when a later source fails with an `error` postback. -/
theorem merge_output_deleted_iff_no_diff (streamOf : String → List Postback)
    (unique_path : String → String) (today : String)
    (filenames : List String) (output_filename : Option String)
    (hne : filenames ≠ []) :
    (run_merge streamOf unique_path today filenames output_filename).map
      MergeRun.outputDeleted =
      some (!anyDiffReceived streamOf filenames.dropLast) := by
  unfold run_merge
  rw [List.getLast?_eq_getLast _ hne]
  simp only [Option.map_some]
  rw [mergeLoop_counts_isEmpty]
  simp

/-- Witness for C2 in the Scenario D shape: first source contributed,
second errored. -/
theorem merge_output_deleted_iff_no_diff_witness :
    (["a.db", "b.db", "base.db"] : List String) ≠ [] ∧
    (run_merge keptStreams (fun t => t) "20150531"
      ["a.db", "b.db", "base.db"] none).map MergeRun.outputDeleted =
      some (!anyDiffReceived keptStreams
        (["a.db", "b.db", "base.db"] : List String).dropLast) :=
  ⟨by decide, merge_output_deleted_iff_no_diff keptStreams (fun t => t)
    "20150531" _ none (by decide)⟩

/-- Scenario D computed concretely: with `keptStreams` the output file
is kept (not deleted) although the second source errored. -/
theorem scenarioD_output_kept :
    (run_merge keptStreams (fun t => t) "20150531"
      ["a.db", "b.db", "base.db"] none).map MergeRun.outputDeleted =
      some false := by decide

/-! ## Claim C7 — base choice, output copy, generated output name -/

/-- C7: every merge invocation takes as base the last element of the
resolved file list (wildcard expansion, deduplication, sorting of the
FILE arguments), and its first externally visible action is copying
that base to the output file — before the postbacks of any source are
consumed.  When no `-o OUTPUT` is given, the output filename is
`unique_path("<basename>.merged.<date><ext>")`, a non-existing path
that equals the template itself whenever the template does not exist;
with `-o` the given name is used.  (`util.unique_path` is modelled from
the spec by the hypothesis `hup`, as module `util` is outside the
embedded source.) -/
theorem run_merge_base_copy_and_output
    (globFn : String → List String) (streamOf : String → List Postback)
    (unique_path : String → String) (existing : List String)
    (today : String) (files : List String) (output : Option String)
    (hne : resolveFiles globFn files ≠ [])
    (hup : ∀ t, unique_path t ∉ existing ∧
      (t ∉ existing → unique_path t = t)) :
    ∃ mr, mergeCommand globFn streamOf unique_path today files output =
        some mr ∧
      mr.base = (resolveFiles globFn files).getLast hne ∧
      mr.events.head? = some (MergeEvent.copyFile mr.base mr.outputFilename) ∧
      (output = none →
        mr.outputFilename = unique_path ((splitext (basename mr.base)).1 ++
          ".merged." ++ today ++ (splitext (basename mr.base)).2) ∧
        mr.outputFilename ∉ existing) ∧
      (∀ o, output = some o → mr.outputFilename = o) := by
  unfold mergeCommand run_merge
  rw [List.getLast?_eq_getLast _ hne]
  refine ⟨_, rfl, rfl, rfl, ?_, ?_⟩
  · rintro rfl
    exact ⟨rfl, (hup _).1⟩
  · rintro o rfl
    rfl

/-- Witness for C7: `merge x*z b.db a.db` resolves to `[a.db, b.db]`,
uses `b.db` as base and generates `b.merged.20150531.db`. -/
theorem run_merge_base_copy_and_output_witness :
    (mergeCommand gW sW (fun t => t) "20150531" ["x*z", "b.db", "a.db"]
      none).map MergeRun.base = some "b.db" ∧
    (mergeCommand gW sW (fun t => t) "20150531" ["x*z", "b.db", "a.db"]
      none).map MergeRun.outputFilename = some "b.merged.20150531.db" := by
  obtain ⟨mr, heq, hbase, hhead, hout, _⟩ :=
    run_merge_base_copy_and_output gW sW (fun t => t) [] "20150531"
      ["x*z", "b.db", "a.db"] none (by decide)
      (fun t => ⟨by simp, fun _ => rfl⟩)
  obtain ⟨hname, _⟩ := hout rfl
  rw [heq]
  have hb : mr.base = "b.db" := by
    rw [hbase]
    rfl
  have hof : mr.outputFilename = "b.merged.20150531.db" := by
    rw [hname, hb]
    rfl
  exact ⟨congrArg some hb, congrArg some hof⟩

/-! ## Claim C3 — the self-comparison guard of `run_diff` -/

/-- C3: when the two diff arguments resolve to the same real path, the
program prints `cannot compare X with itself` and returns at once — no
database is opened, no Worker spawned; when they resolve to distinct
files, the early error branch is not taken. -/
theorem run_diff_same_file_guard (realpath : String → String)
    (filename1 filename2 : String) :
    (realpath filename1 = realpath filename2 →
      run_diff realpath filename1 filename2 =
        [DiffStep.printError
          ("Error: cannot compare " ++ filename1 ++ " with itself.")] ∧
      DiffStep.spawnWorker ∉ run_diff realpath filename1 filename2 ∧
      ∀ f, DiffStep.openDb f ∉ run_diff realpath filename1 filename2) ∧
    (realpath filename1 ≠ realpath filename2 →
      ∀ m, DiffStep.printError m ∉ run_diff realpath filename1 filename2) := by
  constructor
  · intro h
    unfold run_diff
    rw [if_pos h]
    refine ⟨rfl, fun hmem => ?_, fun f hmem => ?_⟩
    · exact DiffStep.noConfusion (List.mem_singleton.mp hmem)
    · exact DiffStep.noConfusion (List.mem_singleton.mp hmem)
  · intro h m hmem
    unfold run_diff at hmem
    rw [if_neg h] at hmem
    simp only [List.mem_cons, List.mem_singleton, List.not_mem_nil,
      or_false] at hmem
    rcases hmem with h1 | h1 | h1 <;> exact DiffStep.noConfusion h1

/-- Witness for C3: `diff a.db a.db` with identity path resolution. -/
theorem run_diff_same_file_guard_witness :
    run_diff (fun s => s) "a.db" "a.db" =
      [DiffStep.printError
        ("Error: cannot compare " ++ "a.db" ++ " with itself.")] ∧
    DiffStep.spawnWorker ∉ run_diff (fun s => s) "a.db" "a.db" :=
  ⟨((run_diff_same_file_guard (fun s => s) "a.db" "a.db").1 rfl).1,
   ((run_diff_same_file_guard (fun s => s) "a.db" "a.db").1 rfl).2.1⟩

/-! ## Claim C8 — the `__main__` interrupt guard -/

/-- C8: a `KeyboardInterrupt` escaping `run()` is caught at the program
entry and the process terminates through a clean `sys.exit()`, never by
an uncaught traceback. -/
theorem main_interrupt_clean_exit :
    mainEntry (RunOutcome.raises PyExc.keyboardInterrupt) =
      ProcEnd.cleanExit ∧
    ∀ e, mainEntry (RunOutcome.raises PyExc.keyboardInterrupt) ≠
      ProcEnd.uncaughtTraceback e :=
  ⟨rfl, fun _ h => ProcEnd.noConfusion h⟩

/-- Witness for C8: the interrupt outcome maps to the clean exit. -/
theorem main_interrupt_clean_exit_witness :
    mainEntry (RunOutcome.raises PyExc.keyboardInterrupt) =
      ProcEnd.cleanExit :=
  main_interrupt_clean_exit.1

/-! ## Claim C10 — the `output` flush policy -/

/-- C10: `output` prints and then flushes stdout; an `IOError` from the
flush with errno `EPIPE` or `EINVAL` makes the process exit via
`sys.exit()` (aborting the batch), any other errno is re-raised to the
caller. -/
theorem output_flush_policy (flush : FlushOutcome) :
    (outputCall flush).printed = true ∧
    (outputCall flush).flushAttempted = true ∧
    ((flush = FlushOutcome.ioError EPIPE ∨
        flush = FlushOutcome.ioError EINVAL) →
      (outputCall flush).result = OutputResult.exited) ∧
    (∀ e, flush = FlushOutcome.ioError e → e ≠ EPIPE → e ≠ EINVAL →
      (outputCall flush).result = OutputResult.raised e) ∧
    (flush = FlushOutcome.ok →
      (outputCall flush).result = OutputResult.returned) := by
  refine ⟨rfl, rfl, ?_, ?_, ?_⟩
  · rintro (rfl | rfl) <;> rfl
  · rintro e rfl h1 h2
    show (if e = EINVAL ∨ e = EPIPE then OutputResult.exited
      else OutputResult.raised e) = OutputResult.raised e
    rw [if_neg]
    rintro (hc | hc)
    · exact h2 hc
    · exact h1 hc
  · rintro rfl
    rfl

/-- Witness for C10 at errno 32 (`EPIPE`), errno 9 (`EBADF`) and a
successful flush. -/
theorem output_flush_policy_witness :
    (outputCall (FlushOutcome.ioError 32)).result = OutputResult.exited ∧
    (outputCall (FlushOutcome.ioError 9)).result = OutputResult.raised 9 ∧
    (outputCall FlushOutcome.ok).result = OutputResult.returned :=
  ⟨(output_flush_policy (FlushOutcome.ioError 32)).2.2.1 (Or.inl rfl),
   (output_flush_policy (FlushOutcome.ioError 9)).2.2.2.1 9 rfl
     (by decide) (by decide),
   (output_flush_policy FlushOutcome.ok).2.2.2.2 rfl⟩

end Skyperious
